import Mathlib

/-!
Verification of the register decoding layer of the Renogy Rover solar charge
controller driver (src/solarshed/controllers/renogy_rover.py).

Each decoder below is a shallow embedding of the corresponding Python method:
raw 16-bit register words are modelled as `Nat` (Python integers are unbounded
and every decoder only masks or shifts, so no wrap-around modelling is needed),
fallible decoding is modelled with `Except`/`Option`, and the transport layer
is factored out: each facade method is embedded as the pure function from the
raw word(s) the transport would return to the decoded value.
-/

namespace Solarshed

/-- Lookup table `BATTERY_TYPE` from the source: codes 1..5 map to chemistry
labels; `Dict.get` with no default returns `None` for any other code. -/
def BATTERY_TYPE (code : Nat) : Option String :=
  match code with
  | 1 => some "open"
  | 2 => some "sealed"
  | 3 => some "gel"
  | 4 => some "lithium"
  | 5 => some "self-customized"
  | _ => none

/-- Lookup table `CHARGING_STATE` from the source: codes 0..6 map to charging
state labels; any other code yields `None`. -/
def CHARGING_STATE (code : Nat) : Option String :=
  match code with
  | 0 => some "deactivated"
  | 1 => some "activated"
  | 2 => some "mppt"
  | 3 => some "equalizing"
  | 4 => some "boost"
  | 5 => some "floating"
  | 6 => some "current limiting"
  | _ => none

/-- The `LoadMode` enumeration from the source, one constructor per member. -/
inductive LoadMode where
  | SOLE_LIGHT_CONTROL
  | MANUAL
  | DELAY_1_HR
  | DELAY_2_HR
  | DELAY_3_HR
  | DELAY_4_HR
  | DELAY_5_HR
  | DELAY_6_HR
  | DELAY_7_HR
  | DELAY_8_HR
  | DELAY_9_HR
  | DELAY_10_HR
  | DELAY_11_HR
  | DELAY_12_HR
  | DELAY_13_HR
  | DELAY_14_HR
  | DEBUG
  | ALWAYS_ON
deriving DecidableEq, Fintype, Repr

/-- Wire value of each `LoadMode` member, exactly as assigned in the source. -/
def LoadMode.value : LoadMode → Nat
  | .SOLE_LIGHT_CONTROL => 0x00
  | .MANUAL => 0x0F
  | .DELAY_1_HR => 0x01
  | .DELAY_2_HR => 0x02
  | .DELAY_3_HR => 0x03
  | .DELAY_4_HR => 0x04
  | .DELAY_5_HR => 0x05
  | .DELAY_6_HR => 0x06
  | .DELAY_7_HR => 0x07
  | .DELAY_8_HR => 0x08
  | .DELAY_9_HR => 0x09
  | .DELAY_10_HR => 0x0A
  | .DELAY_11_HR => 0x0B
  | .DELAY_12_HR => 0x0C
  | .DELAY_13_HR => 0x0D
  | .DELAY_14_HR => 0x0E
  | .DEBUG => 0x10
  | .ALWAYS_ON => 0x11

/-- All members of the enumeration, in source declaration order. -/
def LoadMode.members : List LoadMode :=
  [.SOLE_LIGHT_CONTROL, .MANUAL, .DELAY_1_HR, .DELAY_2_HR, .DELAY_3_HR,
   .DELAY_4_HR, .DELAY_5_HR, .DELAY_6_HR, .DELAY_7_HR, .DELAY_8_HR,
   .DELAY_9_HR, .DELAY_10_HR, .DELAY_11_HR, .DELAY_12_HR, .DELAY_13_HR,
   .DELAY_14_HR, .DEBUG, .ALWAYS_ON]

/-- Python `LoadMode(register)` performs value lookup in the enumeration and
raises `ValueError` when no member has that value; embedded as `Except` with
the spec's error name for the raised error. -/
def LoadMode.ofValue (v : Nat) : Except String LoadMode :=
  match (LoadMode.members.filter (fun m => m.value == v)) with
  | m :: _ => Except.ok m
  | [] => Except.error "InvalidEnumValue"

/-- A single-register Modbus write as issued by `write_register`. -/
structure WriteOp where
  registeraddress : Nat
  value : Nat
  functioncode : Nat
deriving DecidableEq, Repr

/-- Facade `load_mode`: read register 0xE01D and decode it via the
enumeration value lookup. -/
def load_mode (register : Nat) : Except String LoadMode :=
  LoadMode.ofValue register

/-- Facade `set_load_mode`: given a `LoadMode` member, issue a single write of
its wire value to register 0xE01D with function code 0x06. -/
def set_load_mode (m : LoadMode) : WriteOp :=
  WriteOp.mk 0xE01D m.value 0x06

/-- Commanding a raw mode value: the only way a raw value enters
`set_load_mode` is by first constructing the member via `LoadMode(raw)`, which
raises before any transport write happens; the composition is embedded here. -/
def set_load_mode_raw (v : Nat) : Except String WriteOp :=
  (LoadMode.ofValue v).map set_load_mode

/-- Shared sign-magnitude temperature decoding applied by both temperature
accessors to their 8-bit field: from the source, `temp_value = bits & 0xff`,
`sign = bits >> 7`, result `-(temp_value - 128)` if `sign == 1` else
`temp_value`. -/
def decodeTempBits (bits : Nat) : Int :=
  let temp_value : Nat := bits &&& 0xff
  let sign : Nat := bits >>> 7
  if sign == 1 then -((temp_value : Int) - 128) else (temp_value : Int)

/-- Facade `battery_temperature`: decode the low byte of register 259. -/
def battery_temperature (register : Nat) : Int :=
  decodeTempBits (register &&& 0xff)

/-- Facade `controller_temperature`: decode the high byte of register 259. -/
def controller_temperature (register : Nat) : Int :=
  decodeTempBits (register >>> 8)

/-- Facade `system_voltage_current`: split the word at register 10 into
`voltage = register >> 8` and `amps = register & 0xff`. -/
def system_voltage_current (register : Nat) : Nat × Nat :=
  let amps := register &&& 0xff
  let voltage := register >>> 8
  (voltage, amps)

/-- Facade `version`: slice four words into software and hardware version
strings, formatted as in the source. -/
def version (w0 w1 w2 w3 : Nat) : String × String :=
  let soft_major := w0 &&& 0xff
  let soft_minor := w1 >>> 8
  let soft_patch := w1 &&& 0xff
  let hard_major := w2 &&& 0xff
  let hard_minor := w3 >>> 8
  let hard_patch := w3 &&& 0xff
  let software_version :=
    "V" ++ toString soft_major ++ "." ++ toString soft_minor ++ "." ++ toString soft_patch
  let hardware_version :=
    "V" ++ toString hard_major ++ "." ++ toString hard_minor ++ "." ++ toString hard_patch
  (software_version, hardware_version)

/-- Facade `serial_number`: concatenate the decimal representations of the
two words read at register 24. -/
def serial_number (r0 r1 : Nat) : String :=
  toString r0 ++ toString r1

/-- Facade `charging_status`: low byte of register 288. -/
def charging_status (register : Nat) : Nat :=
  register &&& 0xff

/-- Facade `charging_status_label`: the charging status code looked up in the
`CHARGING_STATE` table (no default, so unknown codes give `None`). -/
def charging_status_label (register : Nat) : Option String :=
  CHARGING_STATE (charging_status register)

/-- Facade `battery_type`: raw register 57348 looked up in the `BATTERY_TYPE`
table (no default, so unknown codes give `None`). -/
def battery_type (register : Nat) : Option String :=
  BATTERY_TYPE register

/-- Modelled from the spec: the repository delegates fixed-point scaling to
the external `read_register(..., numberOfDecimals=d)` call, whose body is not
in src/; per the spec it divides the raw word by 10 to the d, exactly. -/
def read_register_scaled (w d : Nat) : ℚ :=
  (w : ℚ) / 10 ^ d

/-- Facade `battery_voltage`: register 257 read with one implied decimal
digit. -/
def battery_voltage (w : Nat) : ℚ :=
  read_register_scaled w 1

set_option maxRecDepth 8000

/-- Masking with 0xff is reduction mod 256. -/
lemma and255 (n : Nat) : n &&& 255 = n % 256 :=
  Nat.and_pow_two_sub_one_eq_mod n 8

/-- Shifting right by 8 is division by 256. -/
lemma shift8 (n : Nat) : n >>> 8 = n / 256 :=
  Nat.shiftRight_eq_div_pow n 8

/-- Every 8-bit field decodes to a temperature in the interval from -127 to
127. -/
lemma decodeTempBits_bounds : ∀ b : Fin 256,
    -127 ≤ decodeTempBits b.val ∧ decodeTempBits b.val ≤ 127 := by
  decide

/-- Codes six and above are outside the battery type table. -/
lemma battery_type_ge_six (k : Nat) : battery_type (k + 6) = none := rfl

/-- Codes seven and above are outside the charging state table. -/
lemma charging_state_ge_seven (k : Nat) : CHARGING_STATE (k + 7) = none := rfl

/-- C1 counterexample: the claim predicts byte 0x9E decodes to
-(30 - 128) = 98, but the code computes -(158 - 128) = -30, because
`temp_value` is the full byte (masked with 0xff), not the low 7 bits. -/
theorem battery_temp_byte_9E_not_98 :
    battery_temperature 0x9E = -30 ∧ battery_temperature 0x9E ≠ 98 ∧
    controller_temperature 0x9E00 = -30 ∧ controller_temperature 0x9E00 ≠ 98 := by
  decide

/-- C1 (amended): for a temperature byte (s<<7)|m with magnitude m in
[0,127] and sign bit s, both temperature accessors return m when s = 0 and
-m when s = 1 (the code subtracts 128 from the FULL byte, so the literal
formula -(byte - 128) collapses to -m); in particular byte 0x9E decodes
to -30. -/
theorem temp_decode_full_byte_sign_magnitude :
    (∀ m : Fin 128, ∀ s : Fin 2,
      battery_temperature ((s.val <<< 7) ||| m.val) =
        (if s.val == 1 then -(m.val : Int) else (m.val : Int)) ∧
      controller_temperature (((s.val <<< 7) ||| m.val) <<< 8) =
        (if s.val == 1 then -(m.val : Int) else (m.val : Int))) ∧
    battery_temperature 0x9E = -30 := by
  decide

/-- C2 counterexample: battery-type code 99 and charging-state code 99 are
absent from their tables; the accessors return `none` (Python `None`), not
the label "unknown". -/
theorem unknown_code_gives_none_not_unknown :
    battery_type 99 = none ∧ battery_type 99 ≠ some "unknown" ∧
    charging_status_label 99 = none ∧ charging_status_label 99 ≠ some "unknown" := by
  decide

/-- C2 (amended): for every register value not present in the battery-type
or charging-state lookup table, `battery_type` and `charging_status_label`
do not raise: the `Dict.get` lookup resolves to `None` (no label), so the
caller gets a null value rather than the string "unknown". -/
theorem unknown_codes_decode_to_none :
    (∀ v : Nat, (v = 0 ∨ 5 < v) → battery_type v = none) ∧
    (∀ w : Nat, 6 < charging_status w → charging_status_label w = none) := by
  constructor
  · intro v h
    rcases h with rfl | h5
    · rfl
    · obtain ⟨k, rfl⟩ : ∃ k, v = k + 6 := ⟨v - 6, by omega⟩
      exact battery_type_ge_six k
  · intro w h
    unfold charging_status_label
    obtain ⟨k, hk⟩ : ∃ k, charging_status w = k + 7 :=
      ⟨charging_status w - 7, by omega⟩
    rw [hk]
    exact charging_state_ge_seven k

/-- C2 witness: the amended theorem applied at codes 99 and 99. -/
theorem unknown_codes_decode_to_none_witness :
    battery_type 99 = none ∧ charging_status_label 99 = none :=
  ⟨unknown_codes_decode_to_none.1 99 (Or.inr (by decide)),
   unknown_codes_decode_to_none.2 99 (by decide)⟩

/-- C3 counterexample: on words [0x0102, 0x0304, 0x0506, 0x0708] the
software version is "V2.3.4" (soft_major = 0x0102 & 0xFF = 2), not the
claimed "V1.2.4". -/
theorem version_example_not_V124 :
    (version 0x0102 0x0304 0x0506 0x0708).1 = "V2.3.4" ∧
    (version 0x0102 0x0304 0x0506 0x0708).1 ≠ "V1.2.4" := by
  decide

/-- C3 (amended): `version` slices its four words exactly as
soft_major = w0 & 0xFF, soft_minor = w1 >> 8, soft_patch = w1 & 0xFF,
hard_major = w2 & 0xFF, hard_minor = w3 >> 8, hard_patch = w3 & 0xFF
(equivalently mod-256 and div-256 arithmetic), formatted as
"V{major}.{minor}.{patch}"; on words [0x0102, 0x0304, 0x0506, 0x0708] the
software version is "V2.3.4". -/
theorem version_bit_slicing :
    (∀ w0 w1 w2 w3 : Nat, version w0 w1 w2 w3 =
      ("V" ++ toString (w0 % 256) ++ "." ++ toString (w1 / 256) ++ "." ++
         toString (w1 % 256),
       "V" ++ toString (w2 % 256) ++ "." ++ toString (w3 / 256) ++ "." ++
         toString (w3 % 256))) ∧
    version 0x0102 0x0304 0x0506 0x0708 = ("V2.3.4", "V6.7.8") := by
  refine ⟨fun w0 w1 w2 w3 => ?_, by decide⟩
  simp [version, and255, shift8]

/-- C4: a raw register value matching no LoadMode wire value decodes to the
InvalidEnumValue error rather than a coerced member, and commanding that raw
value produces the same error with no write operation constructed. -/
theorem invalid_load_mode_rejected :
    ∀ v : Nat, (∀ m : LoadMode, m.value ≠ v) →
      load_mode v = Except.error "InvalidEnumValue" ∧
      set_load_mode_raw v = Except.error "InvalidEnumValue" := by
  intro v h
  have hf : LoadMode.members.filter (fun m => m.value == v) = [] := by
    apply List.filter_eq_nil_iff.mpr
    intro m _
    simpa using h m
  have hd : LoadMode.ofValue v = Except.error "InvalidEnumValue" := by
    unfold LoadMode.ofValue
    rw [hf]
  refine ⟨hd, ?_⟩
  unfold set_load_mode_raw
  rw [hd]
  rfl

/-- C4 witness: the theorem applied at the undefined wire value 0x12. -/
theorem invalid_load_mode_rejected_witness :
    load_mode 0x12 = Except.error "InvalidEnumValue" ∧
    set_load_mode_raw 0x12 = Except.error "InvalidEnumValue" :=
  invalid_load_mode_rejected 0x12 (by decide)

/-- C5: every defined wire value v decodes to a member that encodes back to
v and decodes again to the same member, so
decode(encode(decode v)) = decode v and re-encoding yields v. -/
theorem load_mode_round_trip :
    ∀ v : Nat, (∃ m : LoadMode, m.value = v) →
      ∃ m : LoadMode, LoadMode.ofValue v = Except.ok m ∧
        LoadMode.ofValue m.value = Except.ok m ∧ m.value = v := by
  rintro v ⟨m, rfl⟩
  have h : LoadMode.ofValue m.value = Except.ok m := by
    cases m <;> rfl
  exact ⟨m, h, h, rfl⟩

/-- C5 witness: the round trip at wire value 0x11 (ALWAYS_ON). -/
theorem load_mode_round_trip_witness :
    ∃ m : LoadMode, LoadMode.ofValue 0x11 = Except.ok m ∧
      LoadMode.ofValue m.value = Except.ok m ∧ m.value = 0x11 :=
  load_mode_round_trip 0x11 ⟨LoadMode.ALWAYS_ON, rfl⟩

/-- C6: the LoadMode enumeration maps wire values exactly as 0x00 =
sole-light-control, 0x01..0x0E = delay-1hr..delay-14hr sequentially,
0x0F = manual, 0x10 = debug, 0x11 = always-on, and has no member beyond the
eighteen listed. -/
theorem load_mode_enumeration_exact :
    LoadMode.value .SOLE_LIGHT_CONTROL = 0x00 ∧
    LoadMode.value .DELAY_1_HR = 0x01 ∧
    LoadMode.value .DELAY_2_HR = 0x02 ∧
    LoadMode.value .DELAY_3_HR = 0x03 ∧
    LoadMode.value .DELAY_4_HR = 0x04 ∧
    LoadMode.value .DELAY_5_HR = 0x05 ∧
    LoadMode.value .DELAY_6_HR = 0x06 ∧
    LoadMode.value .DELAY_7_HR = 0x07 ∧
    LoadMode.value .DELAY_8_HR = 0x08 ∧
    LoadMode.value .DELAY_9_HR = 0x09 ∧
    LoadMode.value .DELAY_10_HR = 0x0A ∧
    LoadMode.value .DELAY_11_HR = 0x0B ∧
    LoadMode.value .DELAY_12_HR = 0x0C ∧
    LoadMode.value .DELAY_13_HR = 0x0D ∧
    LoadMode.value .DELAY_14_HR = 0x0E ∧
    LoadMode.value .MANUAL = 0x0F ∧
    LoadMode.value .DEBUG = 0x10 ∧
    LoadMode.value .ALWAYS_ON = 0x11 ∧
    (∀ m : LoadMode, m ∈ LoadMode.members) ∧
    LoadMode.members.length = 18 := by
  decide

/-- C7: battery voltage decoding is exactly the raw word divided by ten as a
rational number: the scaled reading times ten recovers the word with no
rounding. -/
theorem battery_voltage_exact_rational :
    ∀ w : Nat, battery_voltage w = (w : ℚ) / 10 ∧
      10 * battery_voltage w = (w : ℚ) := by
  intro w
  have h : battery_voltage w = (w : ℚ) / 10 := by
    simp [battery_voltage, read_register_scaled]
  refine ⟨h, ?_⟩
  rw [h]
  field_simp

/-- C8: `system_voltage_current` splits its word into the high byte
(voltage) and the low byte (current), so the pair recombines to the word;
word 0x0C05 yields voltage 12 and current 5. -/
theorem system_voltage_current_split :
    (∀ w : Nat, system_voltage_current w = (w / 256, w % 256) ∧
      256 * (system_voltage_current w).1 + (system_voltage_current w).2 = w) ∧
    system_voltage_current 0x0C05 = (12, 5) := by
  refine ⟨fun w => ?_, by decide⟩
  have h1 : system_voltage_current w = (w / 256, w % 256) := by
    simp [system_voltage_current, and255, shift8]
  refine ⟨h1, ?_⟩
  rw [h1]
  exact Nat.div_add_mod w 256

/-- C9: for every 16-bit word, battery and controller temperatures lie in
[-127, 127]; and the byte decoder is not injective: bytes 0x80 and 0x00
both decode to 0. -/
theorem temperature_range_and_collision :
    (∀ w : Nat, w < 65536 →
      -127 ≤ battery_temperature w ∧ battery_temperature w ≤ 127 ∧
      -127 ≤ controller_temperature w ∧ controller_temperature w ≤ 127) ∧
    decodeTempBits 0x80 = 0 ∧ decodeTempBits 0x00 = 0 ∧ (0x80 : Nat) ≠ 0x00 := by
  refine ⟨fun w hw => ?_, by decide, by decide, by decide⟩
  have hb : w &&& 255 < 256 := by
    have := Nat.and_le_right (n := w) (m := 255)
    omega
  have hc : w >>> 8 < 256 := by
    rw [shift8]
    omega
  have h1 := decodeTempBits_bounds ⟨w &&& 255, hb⟩
  have h2 := decodeTempBits_bounds ⟨w >>> 8, hc⟩
  exact ⟨h1.1, h1.2, h2.1, h2.2⟩

/-- C9 witness: the bounds applied at word 0x9E9E. -/
theorem temperature_range_and_collision_witness :
    -127 ≤ battery_temperature 0x9E9E ∧ battery_temperature 0x9E9E ≤ 127 ∧
    -127 ≤ controller_temperature 0x9E9E ∧ controller_temperature 0x9E9E ≤ 127 :=
  temperature_range_and_collision.1 0x9E9E (by decide)

/-- C10: `serial_number` concatenates the unpadded decimal representations
of its two words, and the distinct pairs (1, 23) and (12, 3) both produce
the identical string "123", so the encoding is not injective. -/
theorem serial_number_collision :
    serial_number 1 23 = "123" ∧ serial_number 12 3 = "123" ∧
    ((1, 23) : Nat × Nat) ≠ (12, 3) := by
  decide

end Solarshed
